import Mathlib

/-
Verification of the LlamaService gateway client
(`nephrology_agent/llama_service.py`): data model, cache key, retry loop,
payload construction and the singleton constructor, embedded shallowly,
with theorems about the spec's testable properties.
-/

namespace LlamaService

/-- Python values that appear in the keyword-argument dictionary `**kwargs`
of `generate_response_async`; the repository's callers pass only numbers
(`temperature`, `max_tokens`, `top_p`).  Floats are modelled as rationals. -/
inductive PyVal where
  | int (i : Int)
  | rat (q : Rat)
deriving DecidableEq, Repr

/-- Python `float(x)` on a number. -/
def PyVal.toFloat : PyVal → Rat
  | .int i => (i : Rat)
  | .rat q => q

/-- Python `int(x)` on a number: truncation toward zero
(`Int.tdiv` truncates toward zero, like Python's `int()` on a float). -/
def PyVal.toInt : PyVal → Int
  | .int i => i
  | .rat q => Int.tdiv q.num (q.den : Int)

/-- One conversation-history message dictionary.  The source reads
`m.get('role', '')` and `m.get('content', '')`, so either key may be
absent; `none` models an absent key. -/
structure Message where
  role : Option String
  content : Option String
deriving DecidableEq, Repr

/-- The pair `(m.get('role', ''), m.get('content', ''))` extracted from one
history message (line 114 of the source). -/
def Message.pair (m : Message) : String × String :=
  (m.role.getD "", m.content.getD "")

/-- Python's builtin `hash` on the three shapes the service hashes: strings,
tuples of `(role, content)` pairs, and `frozenset(kwargs.items())`.  Within
one interpreter process `hash` is a fixed function of the value; it is
modelled as an arbitrary such function.  `frozenset` is order-insensitive,
hence the `Finset` argument. -/
structure PyHash where
  hashStr : String → Int
  hashPairs : List (String × String) → Int
  hashFrozen : Finset (String × PyVal) → Int

/-- Constant `MAX_RETRIES = 3` (line 21 of the source). -/
def MAX_RETRIES : Nat := 3

/-- Constant `RETRY_DELAY = 1.0` seconds (line 22 of the source). -/
def RETRY_DELAY : Rat := 1

/-- Method `LlamaService._get_cache_key` (lines 81-84): the string
`f"llama_resp:{hash(prompt)}:{conversation_hash}:{hash(frozenset(kwargs.items()))}"`. -/
def _get_cache_key (h : PyHash) (prompt : String) (conversation_hash : Int)
    (kwargs : List (String × PyVal)) : String :=
  "llama_resp:" ++ toString (h.hashStr prompt) ++ ":"
    ++ toString conversation_hash ++ ":"
    ++ toString (h.hashFrozen kwargs.toFinset)

/-- The conversation hash computed at lines 113-114:
`hash(tuple((m.get('role',''), m.get('content','')) for m in conversation_history))`. -/
def conversationHash (h : PyHash) (history : List Message) : Int :=
  h.hashPairs (history.map Message.pair)

/-- The cache key as `generate_response_async` computes it (lines 113-117):
the conversation hash fed into `_get_cache_key` together with the prompt and
the remaining keyword arguments. -/
def cacheKeyOf (h : PyHash) (prompt : String) (history : List Message)
    (kwargs : List (String × PyVal)) : String :=
  _get_cache_key h prompt (conversationHash h history) kwargs

/-- The JSON body of an HTTP-200 response, as far as the service inspects it:
`notJson msg` models a body on which `response.json()` raises (with message
`msg`); `json c` models a JSON object where
`result.get('message', {}).get('content', '')` yields `c.getD ""`. -/
inductive Body200 where
  | notJson (msg : String)
  | json (content : Option String)
deriving DecidableEq, Repr

/-- Result of one physical `POST {base_url}/api/chat` round trip, as the
service observes it: a timeout (`asyncio.TimeoutError`), a transport error
(`aiohttp.ClientError` with message), or an HTTP response with a status,
an optional integer `Retry-After` header, the error text read on non-200
statuses, and the body read on status 200. -/
inductive AttemptOutcome where
  | timeout
  | connError (msg : String)
  | http (status : Nat) (retryAfter : Option Nat) (errorText : String) (body : Body200)
deriving DecidableEq, Repr

/-- Errors surfaced by the service: `fastapi.HTTPException(status_code, detail)`
and `ValueError(msg)`. -/
inductive SvcError where
  | httpEx (status_code : Nat) (detail : String)
  | valueError (msg : String)
deriving DecidableEq, Repr

/-- Python `str(e)` for the exceptions involved: starlette's
`HTTPException.__str__` is `f"{self.status_code}: {self.detail}"`, and
`str(ValueError(msg))` is `msg`. -/
def SvcError.str : SvcError → String
  | .httpEx s d => toString s ++ ": " ++ d
  | .valueError m => m

/-- Python `str.strip()`: the string with leading and trailing whitespace
removed. -/
def pyStrip (s : String) : String :=
  ⟨((s.data.dropWhile Char.isWhitespace).reverse.dropWhile Char.isWhitespace).reverse⟩

/-- Observable effects of one logical call: each physical network attempt
(numbered from 0) and each `asyncio.sleep` (duration in seconds). -/
inductive Event where
  | attempt (n : Nat)
  | sleep (d : Rat)
deriving DecidableEq, Repr

/-- The retry loop of `generate_response_async` (lines 163-231), one step
per iteration of `for attempt in range(maxRetries)`.  `remaining` counts the
iterations left (so the current `attempt` index is
`maxRetries - remaining`), `last` is `last_exception`.  Returns the ordered
trace of attempts and sleeps together with either the response text or the
raised `HTTPException`.  Faithful details: a non-200 non-429 status raises
`HTTPException(status, "Llama API error: " + error_text)`, which the blanket
`except Exception` catches and replaces by a 500 whose detail embeds
`str(e)`; the 429 branch sleeps `int(headers.get('Retry-After', '1'))` and
`continue`s without touching `last_exception`; the exponential backoff
`RETRY_DELAY * 2 ** attempt` runs only when `attempt < maxRetries - 1`; when
the loop ends the code raises `last_exception or HTTPException(500,
"Failed to generate response after multiple attempts")`. -/
def attemptLoop (backend : Nat → AttemptOutcome) (maxRetries : Nat)
    (retryDelay : Rat) :
    Nat → Option SvcError → List Event × Except SvcError String
  | 0, last =>
      ([], .error (last.getD
        (.httpEx 500 "Failed to generate response after multiple attempts")))
  | remaining + 1, last =>
      let attempt := maxRetries - (remaining + 1)
      let backoff : List Event :=
        if attempt < maxRetries - 1 then
          [Event.sleep (retryDelay * 2 ^ attempt)]
        else []
      match backend attempt with
      | .timeout =>
          let r := attemptLoop backend maxRetries retryDelay remaining
            (some (.httpEx 504 "Request to Llama API timed out"))
          (Event.attempt attempt :: (backoff ++ r.1), r.2)
      | .connError msg =>
          let r := attemptLoop backend maxRetries retryDelay remaining
            (some (.httpEx 503 ("Error connecting to Llama API: " ++ msg)))
          (Event.attempt attempt :: (backoff ++ r.1), r.2)
      | .http status retryAfter errorText body =>
          if status ≠ 200 then
            if status = 429 then
              let r := attemptLoop backend maxRetries retryDelay remaining last
              (Event.attempt attempt ::
                Event.sleep ((retryAfter.getD 1 : Nat) : Rat) :: r.1, r.2)
            else
              let raised : SvcError :=
                .httpEx status ("Llama API error: " ++ errorText)
              let r := attemptLoop backend maxRetries retryDelay remaining
                (some (.httpEx 500 ("Unexpected error: " ++ raised.str)))
              (Event.attempt attempt :: (backoff ++ r.1), r.2)
          else
            match body with
            | .notJson msg =>
                let r := attemptLoop backend maxRetries retryDelay remaining
                  (some (.httpEx 500 ("Unexpected error: " ++ msg)))
                (Event.attempt attempt :: (backoff ++ r.1), r.2)
            | .json content =>
                ([Event.attempt attempt], .ok (content.getD ""))

/-- The request cache `self._cache`: `none` models the attribute not
existing yet (`hasattr(self, '_cache')` false); an association list models
the dict. -/
structure ServiceState where
  cache : Option (List (String × String))
deriving DecidableEq, Repr

/-- Python dict assignment `d[k] = v` on an association list: the new
binding shadows (replaces) any previous binding of `k`. -/
def dictInsert (l : List (String × String)) (k v : String) :
    List (String × String) :=
  (k, v) :: l.filter (fun p => p.1 ≠ k)

/-- The cache lookup of lines 117-121:
`hasattr(self, '_cache') and cache_key in self._cache`, then
`self._cache[cache_key]`. -/
def cacheLookup (st : ServiceState) (k : String) : Option String :=
  match st.cache with
  | some c => c.lookup k
  | none => none

/-- Method `LlamaService.generate_response_async` (lines 86-231):
validation (`if not prompt or not prompt.strip(): raise ValueError`),
`conversation_history or []`, cache lookup, the retry loop, and on success
the cache store (`self._cache = {}` when absent, then
`self._cache[cache_key] = response_text`).  `backend` gives the outcome of
each physical attempt; `h` is the process's `hash`.  Returns the event
trace, the new service state, and the result. -/
def generate_response_async (h : PyHash) (st : ServiceState)
    (backend : Nat → AttemptOutcome) (prompt : String)
    (conversation_history : Option (List Message))
    (kwargs : List (String × PyVal)) :
    List Event × ServiceState × Except SvcError String :=
  if prompt = "" ∨ pyStrip prompt = "" then
    ([], st, .error (.valueError "Prompt cannot be empty"))
  else
    let history := conversation_history.getD []
    let cache_key := cacheKeyOf h prompt history kwargs
    match cacheLookup st cache_key with
    | some v => ([], st, .ok v)
    | none =>
        let r := attemptLoop backend MAX_RETRIES RETRY_DELAY MAX_RETRIES none
        match r.2 with
        | .ok text =>
            (r.1, ⟨some (dictInsert (st.cache.getD []) cache_key text)⟩, .ok text)
        | .error e => (r.1, st, .error e)

/-- Number of physical network attempts recorded in a trace. -/
def countAttempts (trace : List Event) : Nat :=
  (trace.filter (fun e => match e with | .attempt _ => true | _ => false)).length

/-- The sleep durations of a trace, in order. -/
def sleeps (trace : List Event) : List Rat :=
  trace.filterMap (fun e => match e with | .sleep d => some d | _ => none)

/-- The `options` object serialized into the backend payload (lines
128-138): `temperature = min(float(kwargs.get('temperature', 0.7)), 1.0)`,
`num_predict = min(int(kwargs.get('max_tokens', 1000)), 4000)`,
`top_p = float(kwargs.get('top_p', 0.9))`. -/
structure PayloadOptions where
  temperature : Rat
  num_predict : Int
  top_p : Rat
deriving DecidableEq, Repr

/-- Python `kwargs.get(k, d)` on the keyword-argument dictionary. -/
def getKw (kwargs : List (String × PyVal)) (k : String) (d : PyVal) : PyVal :=
  (kwargs.lookup k).getD d

/-- Construction of the payload `options` (lines 128-138 of the source). -/
def payloadOptions (kwargs : List (String × PyVal)) : PayloadOptions :=
  { temperature := min (getKw kwargs "temperature" (.rat (7/10))).toFloat 1
    num_predict := min (getKw kwargs "max_tokens" (.int 1000)).toInt 4000
    top_p := (getKw kwargs "top_p" (.rat (9/10))).toFloat }

/-- Python `a or b` where `a` is an optional string argument; `None` and the
empty string are both falsy. -/
def pyOr (a : Option String) (b : String) : String :=
  match a with
  | some s => if s = "" then b else s
  | none => b

/-- Python `a or b` where the fallback is itself optional (`os.getenv` may
return `None`). -/
def pyOrOpt (a : Option String) (b : Option String) : Option String :=
  match a with
  | some s => if s = "" then b else some s
  | none => b

/-- Session headers built in `__init__` (lines 55-60): the Authorization
value is `f"Bearer {self.api_key}"` when the key is truthy, else `""`. -/
def mkHeaders (api_key : Option String) : List (String × String) :=
  [("Content-Type", "application/json"),
   ("Authorization",
     match api_key with
     | some k => if k = "" then "" else "Bearer " ++ k
     | none => ""),
   ("User-Agent", "Vedanta-AI-Backend/1.0")]

/-- The singleton instance's state: `self._initialized` (field `inited`
here) plus the configuration frozen by `__init__`: `base_url`, `api_key`
and the session headers. -/
structure InstanceState where
  inited : Bool
  base_url : String
  api_key : Option String
  sessionHeaders : List (String × String)
deriving DecidableEq, Repr

/-- The class attribute `LlamaService._instance`. -/
structure ClassState where
  inst : Option InstanceState
deriving DecidableEq, Repr

/-- The environment variables `LLAMA_API_URL` and `LLAMA_API_KEY`. -/
structure Env where
  llama_api_url : Option String
  llama_api_key : Option String
deriving DecidableEq, Repr

/-- Constructor `LlamaService(base_url, api_key)`: `__new__` (lines 28-32)
reuses `cls._instance` when present, otherwise allocates a fresh object with
`_initialized = False`; `__init__` (lines 34-68) returns immediately when
`_initialized` is set, otherwise resolves
`base_url or os.getenv("LLAMA_API_URL", "http://localhost:8000")` and
`api_key or os.getenv("LLAMA_API_KEY")`, builds the session headers, and
marks the instance initialised.  Returns the new class state and the
instance handed to the caller. -/
def constructLlamaService (env : Env) (cs : ClassState)
    (base_url api_key : Option String) : ClassState × InstanceState :=
  let obj : InstanceState :=
    match cs.inst with
    | some i => i
    | none => { inited := false, base_url := "", api_key := none, sessionHeaders := [] }
  if obj.inited then
    ({ inst := some obj }, obj)
  else
    let burl := pyOr base_url (env.llama_api_url.getD "http://localhost:8000")
    let key := pyOrOpt api_key env.llama_api_key
    let obj2 : InstanceState :=
      { inited := true, base_url := burl, api_key := key,
        sessionHeaders := mkHeaders key }
    ({ inst := some obj2 }, obj2)

/-- A concrete hash assignment, used by the concrete instantiations below. -/
def hash0 : PyHash := ⟨fun _ => 0, fun _ => 0, fun _ => 0⟩

/-! Helper lemmas shared by the claim theorems. -/

theorem valid_prompt_not_empty {prompt : String} (hp : pyStrip prompt ≠ "") :
    ¬(prompt = "" ∨ pyStrip prompt = "") := by
  rintro (h | h)
  · subst h; exact hp rfl
  · exact hp h

theorem generate_miss_error (h : PyHash) (st : ServiceState)
    (backend : Nat → AttemptOutcome) (prompt : String)
    (hist : Option (List Message)) (kwargs : List (String × PyVal))
    {tr : List Event} {e : SvcError}
    (hp : pyStrip prompt ≠ "")
    (hmiss : cacheLookup st (cacheKeyOf h prompt (hist.getD []) kwargs) = none)
    (hloop : attemptLoop backend MAX_RETRIES RETRY_DELAY MAX_RETRIES none = (tr, .error e)) :
    generate_response_async h st backend prompt hist kwargs = (tr, st, .error e) := by
  simp only [generate_response_async, if_neg (valid_prompt_not_empty hp), hmiss, hloop]

theorem generate_miss_ok (h : PyHash) (st : ServiceState)
    (backend : Nat → AttemptOutcome) (prompt : String)
    (hist : Option (List Message)) (kwargs : List (String × PyVal))
    {tr : List Event} {text : String}
    (hp : pyStrip prompt ≠ "")
    (hmiss : cacheLookup st (cacheKeyOf h prompt (hist.getD []) kwargs) = none)
    (hloop : attemptLoop backend MAX_RETRIES RETRY_DELAY MAX_RETRIES none = (tr, .ok text)) :
    generate_response_async h st backend prompt hist kwargs =
      (tr, ⟨some (dictInsert (st.cache.getD [])
        (cacheKeyOf h prompt (hist.getD []) kwargs) text)⟩, .ok text) := by
  simp only [generate_response_async, if_neg (valid_prompt_not_empty hp), hmiss, hloop]

theorem generate_miss_fst (h : PyHash) (st : ServiceState)
    (backend : Nat → AttemptOutcome) (prompt : String)
    (hist : Option (List Message)) (kwargs : List (String × PyVal))
    (hp : pyStrip prompt ≠ "")
    (hmiss : cacheLookup st (cacheKeyOf h prompt (hist.getD []) kwargs) = none) :
    (generate_response_async h st backend prompt hist kwargs).1 =
      (attemptLoop backend MAX_RETRIES RETRY_DELAY MAX_RETRIES none).1 := by
  simp only [generate_response_async, if_neg (valid_prompt_not_empty hp), hmiss]
  cases hres : (attemptLoop backend MAX_RETRIES RETRY_DELAY MAX_RETRIES none).2 <;>
    simp [hres]

theorem countAttempts_cons_attempt (n : Nat) (l : List Event) :
    countAttempts (Event.attempt n :: l) = countAttempts l + 1 := by
  simp [countAttempts]

theorem countAttempts_append (l1 l2 : List Event) :
    countAttempts (l1 ++ l2) = countAttempts l1 + countAttempts l2 := by
  simp [countAttempts]

theorem countAttempts_backoff (c : Prop) [Decidable c] (d : Rat) :
    countAttempts (if c then [Event.sleep d] else []) = 0 := by
  split <;> simp [countAttempts]

theorem attemptLoop_all_timeout (backend : Nat → AttemptOutcome) (mr : Nat) (rd : Rat)
    (hb : ∀ i, backend i = .timeout) :
    ∀ (r : Nat) (last : Option SvcError),
      countAttempts (attemptLoop backend mr rd r last).1 = r ∧
      (attemptLoop backend mr rd r last).2 =
        .error (if r = 0 then
            last.getD (.httpEx 500 "Failed to generate response after multiple attempts")
          else .httpEx 504 "Request to Llama API timed out") := by
  intro r
  induction r with
  | zero => intro last; simp [attemptLoop, countAttempts]
  | succ n ih =>
      intro last
      have h1 := ih (some (.httpEx 504 "Request to Llama API timed out"))
      simp only [attemptLoop, hb]
      refine ⟨?_, ?_⟩
      · simp only [countAttempts_cons_attempt, countAttempts_append,
          countAttempts_backoff, h1.1]
        omega
      · rw [h1.2]
        simp

theorem attemptLoop_first_success (backend : Nat → AttemptOutcome)
    (ra : Option Nat) (et : String) (c : Option String)
    (hb : backend 0 = .http 200 ra et (.json c)) :
    attemptLoop backend MAX_RETRIES RETRY_DELAY MAX_RETRIES none =
      ([.attempt 0], .ok (c.getD "")) := by
  simp [attemptLoop, MAX_RETRIES, hb]

theorem attemptLoop_retryable_trace (backend : Nat → AttemptOutcome)
    (hb : ∀ i, i < MAX_RETRIES → backend i = .timeout ∨ ∃ m, backend i = .connError m) :
    (attemptLoop backend MAX_RETRIES RETRY_DELAY MAX_RETRIES none).1 =
      [.attempt 0, .sleep (RETRY_DELAY * 2 ^ 0), .attempt 1,
        .sleep (RETRY_DELAY * 2 ^ 1), .attempt 2] := by
  have h0 := hb 0 (by decide)
  have h1 := hb 1 (by decide)
  have h2 := hb 2 (by decide)
  rcases h0 with h0 | ⟨m0, h0⟩ <;> rcases h1 with h1 | ⟨m1, h1⟩ <;>
    rcases h2 with h2 | ⟨m2, h2⟩ <;>
      simp [attemptLoop, MAX_RETRIES, h0, h1, h2]

/-! Claim theorems. -/

/-- C1 (counterexample): with the always-timing-out backend, a valid prompt
and an empty cache, `generate_response_async` performs 3 physical attempts,
not `MAX_RETRIES + 1 = 4` as the claim states: the source loop is
`for attempt in range(MAX_RETRIES)`, giving `MAX_RETRIES` total attempts. -/
theorem generate_timeout_attempts_not_four :
    countAttempts (generate_response_async hash0 ⟨none⟩
        (fun _ => .timeout) "Hi" none []).1 ≠ MAX_RETRIES + 1 := by
  decide

/-- C1 (amended): for every prompt (non-blank), history and options, if
every physical attempt times out and the cache misses, then
`generate_response_async` performs exactly `MAX_RETRIES` physical attempts
and then fails with the classified Timeout error, the HTTP 504
`"Request to Llama API timed out"` recorded from the last attempt. -/
theorem generate_timeout_exhaustion (h : PyHash) (st : ServiceState)
    (backend : Nat → AttemptOutcome) (prompt : String)
    (hist : Option (List Message)) (kwargs : List (String × PyVal))
    (hp : pyStrip prompt ≠ "")
    (hmiss : cacheLookup st (cacheKeyOf h prompt (hist.getD []) kwargs) = none)
    (hb : ∀ i, backend i = .timeout) :
    countAttempts (generate_response_async h st backend prompt hist kwargs).1 =
      MAX_RETRIES ∧
    (generate_response_async h st backend prompt hist kwargs).2.2 =
      .error (.httpEx 504 "Request to Llama API timed out") := by
  have haux := attemptLoop_all_timeout backend MAX_RETRIES RETRY_DELAY hb MAX_RETRIES none
  have herr : (attemptLoop backend MAX_RETRIES RETRY_DELAY MAX_RETRIES none).2 =
      .error (.httpEx 504 "Request to Llama API timed out") := by
    rw [haux.2]; rfl
  have hpair : attemptLoop backend MAX_RETRIES RETRY_DELAY MAX_RETRIES none =
      ((attemptLoop backend MAX_RETRIES RETRY_DELAY MAX_RETRIES none).1,
        Except.error (.httpEx 504 "Request to Llama API timed out")) := by
    rw [← herr]
  rw [generate_miss_error h st backend prompt hist kwargs hp hmiss hpair]
  exact ⟨haux.1, rfl⟩

/-- C1 witness: the amended theorem applied at the concrete always-timeout
backend with prompt `"Hi"`, no history, no options and a fresh service. -/
theorem generate_timeout_exhaustion_witness :
    countAttempts (generate_response_async hash0 ⟨none⟩
        (fun _ => .timeout) "Hi" none []).1 = MAX_RETRIES ∧
    (generate_response_async hash0 ⟨none⟩ (fun _ => .timeout) "Hi" none []).2.2 =
      .error (.httpEx 504 "Request to Llama API timed out") :=
  generate_timeout_exhaustion hash0 ⟨none⟩ (fun _ => .timeout) "Hi" none []
    (by decide) rfl (fun _ => rfl)

/-- C2 (code bug): a backend answering HTTP 400 on every attempt.  The
source deliberately raises `HTTPException(response.status, "Llama API
error: " + error_text)` for a non-429 client error, but the blanket
`except Exception` in the same `try` catches that very exception, records
it as a 500 `"Unexpected error: ..."` and retries; so the call performs 3
physical attempts (with backoff sleeps) and surfaces HTTP 500, not one
attempt and an immediate rejection carrying the backend's status. -/
theorem client_error_retried_and_misclassified :
    generate_response_async hash0 ⟨none⟩
        (fun _ => .http 400 none "Bad request" (.json none)) "Hi" none [] =
      ([.attempt 0, .sleep 1, .attempt 1, .sleep 2, .attempt 2], ⟨none⟩,
        .error (.httpEx 500 "Unexpected error: 400: Llama API error: Bad request")) := by
  simp [generate_response_async, attemptLoop, MAX_RETRIES, RETRY_DELAY, cacheLookup,
    pyStrip, SvcError.str]
  rfl

/-- C3 (code bug): a backend answering HTTP 429 on every attempt.  The 429
branch sleeps `Retry-After` and `continue`s without assigning
`last_exception`, so after the budget is exhausted the code raises the
fallback generic HTTP 500 `"Failed to generate response after multiple
attempts"` instead of a classified rate-limit error. -/
theorem rate_limit_exhaustion_generic_error :
    generate_response_async hash0 ⟨none⟩
        (fun _ => .http 429 (some 2) "rate limited" (.json none)) "Hi" none [] =
      ([.attempt 0, .sleep 2, .attempt 1, .sleep 2, .attempt 2, .sleep 2], ⟨none⟩,
        .error (.httpEx 500 "Failed to generate response after multiple attempts")) := by
  simp [generate_response_async, attemptLoop, MAX_RETRIES, RETRY_DELAY, cacheLookup,
    pyStrip]

/-- C4 (counterexample): an HTTP 200 response whose JSON body lacks
`message.content` is returned as a success with empty-string text after a
single attempt, and the empty string is stored in the cache; it is not
classified as a retryable `BackendError`. -/
theorem missing_content_counterexample :
    generate_response_async hash0 ⟨none⟩
        (fun _ => .http 200 none "" (.json none)) "Hi" none [] =
      ([.attempt 0], ⟨some [("llama_resp:0:0:0", "")]⟩, .ok "") := by
  simp [generate_response_async, attemptLoop, MAX_RETRIES, RETRY_DELAY, cacheLookup,
    pyStrip, cacheKeyOf, _get_cache_key, conversationHash, hash0, dictInsert]
  rfl

/-- C4 (amended): for every call (valid prompt, cache miss) whose first
attempt returns HTTP 200 with a JSON body lacking `message.content`, the
call is treated as a success: exactly one physical attempt occurs, the
empty string is cached under the request's key and returned. -/
theorem missing_content_treated_as_success (h : PyHash) (st : ServiceState)
    (backend : Nat → AttemptOutcome) (prompt : String)
    (hist : Option (List Message)) (kwargs : List (String × PyVal))
    (ra : Option Nat) (et : String)
    (hp : pyStrip prompt ≠ "")
    (hmiss : cacheLookup st (cacheKeyOf h prompt (hist.getD []) kwargs) = none)
    (hb : backend 0 = .http 200 ra et (.json none)) :
    generate_response_async h st backend prompt hist kwargs =
      ([.attempt 0], ⟨some (dictInsert (st.cache.getD [])
        (cacheKeyOf h prompt (hist.getD []) kwargs) "")⟩, .ok "") :=
  generate_miss_ok h st backend prompt hist kwargs hp hmiss
    (attemptLoop_first_success backend ra et none hb)

/-- C4 witness: the amended theorem applied at a backend that answers
HTTP 200 with the body `{}` on the first attempt. -/
theorem missing_content_treated_as_success_witness :
    generate_response_async hash0 ⟨none⟩
        (fun _ => .http 200 none "" (.json none)) "Hello doc" none [] =
      ([.attempt 0], ⟨some (dictInsert ((⟨none⟩ : ServiceState).cache.getD [])
        (cacheKeyOf hash0 "Hello doc" ((none : Option (List Message)).getD []) []) "")⟩,
        .ok "") :=
  missing_content_treated_as_success hash0 ⟨none⟩
    (fun _ => .http 200 none "" (.json none)) "Hello doc" none [] none ""
    (by decide) rfl rfl

/-- C5 (confirmed): the cache key is a deterministic function of the
structure of the inputs: for equal prompts, histories with equal extracted
`(role, content)` pairs, and keyword-argument dictionaries with equal
underlying sets of items (insertion order irrelevant, because the source
hashes `frozenset(kwargs.items())`), `_get_cache_key` composed with the
conversation hash produces the same key string. -/
theorem cacheKey_deterministic (h : PyHash) (prompt : String)
    (h1 h2 : List Message) (kw1 kw2 : List (String × PyVal))
    (hh : h1.map Message.pair = h2.map Message.pair)
    (hk : kw1.toFinset = kw2.toFinset) :
    cacheKeyOf h prompt h1 kw1 = cacheKeyOf h prompt h2 kw2 := by
  unfold cacheKeyOf _get_cache_key conversationHash
  rw [hh, hk]

/-- C5 witness: two structurally equal inputs built from distinct objects —
the first history message carries no `role` key while the second carries
`role` `""` (both extract to `("", "x")`), and the options dictionaries
list the same items in opposite orders. -/
theorem cacheKey_deterministic_witness :
    cacheKeyOf hash0 "p" [⟨none, some "x"⟩]
        [("temperature", .rat 1), ("max_tokens", .int 2)] =
      cacheKeyOf hash0 "p" [⟨some "", some "x"⟩]
        [("max_tokens", .int 2), ("temperature", .rat 1)] :=
  cacheKey_deterministic hash0 "p" [⟨none, some "x"⟩] [⟨some "", some "x"⟩]
    [("temperature", .rat 1), ("max_tokens", .int 2)]
    [("max_tokens", .int 2), ("temperature", .rat 1)]
    (by decide) (by decide)

/-- C6 (confirmed): when the computed cache key is present in the request
cache, `generate_response_async` returns the cached value, its event trace
is empty (zero physical attempts, no sleeps: the retry loop never runs) and
the service state — the cache included — is returned unchanged. -/
theorem cache_hit_skips_network (h : PyHash) (st : ServiceState)
    (backend : Nat → AttemptOutcome) (prompt : String)
    (hist : Option (List Message)) (kwargs : List (String × PyVal)) (v : String)
    (hp : pyStrip prompt ≠ "")
    (hhit : cacheLookup st (cacheKeyOf h prompt (hist.getD []) kwargs) = some v) :
    generate_response_async h st backend prompt hist kwargs = ([], st, .ok v) := by
  simp only [generate_response_async, if_neg (valid_prompt_not_empty hp), hhit]

/-- C6 witness: a service whose cache already holds the key computed for
prompt `"Hi"` with no history and no options, facing an always-failing
backend: the cached value is returned with an empty trace and the state is
unchanged. -/
theorem cache_hit_skips_network_witness :
    generate_response_async hash0 ⟨some [("llama_resp:0:0:0", "cached")]⟩
        (fun _ => .timeout) "Hi" none [] =
      ([], ⟨some [("llama_resp:0:0:0", "cached")]⟩, .ok "cached") :=
  cache_hit_skips_network hash0 ⟨some [("llama_resp:0:0:0", "cached")]⟩
    (fun _ => .timeout) "Hi" none [] "cached" (by decide) rfl

/-- C7 (confirmed): for a cache-missing call whose physical attempts all
fail retryably with Timeout or ConnectionError, the sleeps of the trace are
exactly the exponential schedule `RETRY_DELAY * 2 ^ attempt` for attempt
indices counted from 0, and these successive retry delays are
non-decreasing. -/
theorem backoff_exponential_schedule (h : PyHash) (st : ServiceState)
    (backend : Nat → AttemptOutcome) (prompt : String)
    (hist : Option (List Message)) (kwargs : List (String × PyVal))
    (hp : pyStrip prompt ≠ "")
    (hmiss : cacheLookup st (cacheKeyOf h prompt (hist.getD []) kwargs) = none)
    (hb : ∀ i, i < MAX_RETRIES → backend i = .timeout ∨ ∃ m, backend i = .connError m) :
    sleeps (generate_response_async h st backend prompt hist kwargs).1 =
      (List.range (MAX_RETRIES - 1)).map (fun i => RETRY_DELAY * 2 ^ i) ∧
    List.Chain' (fun a b => a ≤ b)
      (sleeps (generate_response_async h st backend prompt hist kwargs).1) := by
  rw [generate_miss_fst h st backend prompt hist kwargs hp hmiss,
    attemptLoop_retryable_trace backend hb]
  constructor
  · simp [sleeps, MAX_RETRIES, List.range_succ]
  · simp only [sleeps, List.filterMap]
    norm_num [RETRY_DELAY]

/-- C7 witness: the schedule theorem applied at the concrete always-timeout
backend: the sleeps are `[1, 2]` seconds. -/
theorem backoff_exponential_schedule_witness :
    sleeps (generate_response_async hash0 ⟨none⟩
        (fun _ => .timeout) "Hi" none []).1 =
      (List.range (MAX_RETRIES - 1)).map (fun i => RETRY_DELAY * 2 ^ i) ∧
    List.Chain' (fun a b => a ≤ b)
      (sleeps (generate_response_async hash0 ⟨none⟩
        (fun _ => .timeout) "Hi" none []).1) :=
  backoff_exponential_schedule hash0 ⟨none⟩ (fun _ => .timeout) "Hi" none []
    (by decide) rfl (fun _ _ => Or.inl rfl)

/-- C8 (confirmed): for every history, options course and backend, a prompt
that strips to the empty string makes `generate_response_async` fail with
`ValueError("Prompt cannot be empty")` — the `InvalidInput` kind — with an
empty event trace: no physical network attempt occurs and the state is
unchanged. -/
theorem blank_prompt_invalid_input (h : PyHash) (st : ServiceState)
    (backend : Nat → AttemptOutcome) (prompt : String)
    (hist : Option (List Message)) (kwargs : List (String × PyVal))
    (hp : pyStrip prompt = "") :
    generate_response_async h st backend prompt hist kwargs =
      ([], st, .error (.valueError "Prompt cannot be empty")) := by
  unfold generate_response_async
  rw [if_pos (Or.inr hp)]

/-- C8 witness: the theorem applied at the empty prompt and at the
whitespace-only prompt `"   "`. -/
theorem blank_prompt_invalid_input_witness :
    generate_response_async hash0 ⟨none⟩ (fun _ => .timeout) "" none [] =
      ([], ⟨none⟩, .error (.valueError "Prompt cannot be empty")) ∧
    generate_response_async hash0 ⟨none⟩ (fun _ => .timeout) "   " none [] =
      ([], ⟨none⟩, .error (.valueError "Prompt cannot be empty")) :=
  ⟨blank_prompt_invalid_input hash0 ⟨none⟩ (fun _ => .timeout) "" none [] rfl,
    blank_prompt_invalid_input hash0 ⟨none⟩ (fun _ => .timeout) "   " none []
      (by decide)⟩

/-- C9 (confirmed): the serialized options are clamped from above and never
rejected: the temperature sent is `min(requested, 1.0)`, `num_predict` is
`min(max_tokens, 4000)`, and `top_p` is forwarded unmodified; no lower
bound is enforced on any of them (the witness sends a negative temperature
and a `top_p` above 1 untouched). -/
theorem payload_options_clamped_from_above (kwargs : List (String × PyVal))
    (t p : Rat) (m : Int)
    (ht : kwargs.lookup "temperature" = some (.rat t))
    (hm : kwargs.lookup "max_tokens" = some (.int m))
    (htp : kwargs.lookup "top_p" = some (.rat p)) :
    payloadOptions kwargs =
      { temperature := min t 1, num_predict := min m 4000, top_p := p } := by
  simp [payloadOptions, getKw, ht, hm, htp, PyVal.toFloat, PyVal.toInt]

/-- C9 witness: requested temperature `-2` (below any sane lower bound),
`max_tokens = 9000` and `top_p = 5`: the payload carries temperature `-2`
(not clamped from below, not rejected), `num_predict = 4000` (clamped from
above) and `top_p = 5` (forwarded unmodified). -/
theorem payload_options_clamped_from_above_witness :
    payloadOptions [("temperature", .rat (-2)), ("max_tokens", .int 9000),
        ("top_p", .rat 5)] =
      { temperature := min (-2) 1, num_predict := min 9000 4000, top_p := 5 } :=
  payload_options_clamped_from_above
    [("temperature", .rat (-2)), ("max_tokens", .int 9000), ("top_p", .rat 5)]
    (-2) 5 9000 rfl rfl rfl

/-- C10 (confirmed): once the singleton instance exists and is marked
initialised, every later construction — with any base URL and credential
arguments and even a different environment — returns the same instance and
leaves the class state (hence the frozen base URL, credential and session
headers) unchanged. -/
theorem singleton_ignores_later_arguments (env : Env) (cs : ClassState)
    (i : InstanceState) (base_url api_key : Option String)
    (hcs : cs.inst = some i) (hi : i.inited = true) :
    constructLlamaService env cs base_url api_key = (cs, i) := by
  cases cs with
  | mk inst =>
      cases hcs
      simp [constructLlamaService, hi]

/-- C10 witness: a second construction with different arguments and a
different environment returns the instance frozen by the first one and
leaves the class state untouched. -/
theorem singleton_ignores_later_arguments_witness :
    constructLlamaService ⟨some "http://env2", some "key2"⟩
        ⟨some ⟨true, "http://a", some "k", mkHeaders (some "k")⟩⟩
        (some "http://other") (some "other-key") =
      (⟨some ⟨true, "http://a", some "k", mkHeaders (some "k")⟩⟩,
        ⟨true, "http://a", some "k", mkHeaders (some "k")⟩) :=
  singleton_ignores_later_arguments ⟨some "http://env2", some "key2"⟩
    ⟨some ⟨true, "http://a", some "k", mkHeaders (some "k")⟩⟩
    ⟨true, "http://a", some "k", mkHeaders (some "k")⟩
    (some "http://other") (some "other-key") rfl rfl

end LlamaService
